import Mathlib

/-!
Shallow embedding of the daily dev-quote bot (`src/index.js`) and proofs
about its components: prompt construction, the AI-call retry loop with
sentinel-token sanitization, the ClickUp context fetcher, the fallback
selector, and the delivery dispatcher.

External effects (HTTP fetch, JSON parsing, channel resolution) are
modelled as explicit environment values describing the outcome of each
call; JavaScript falsiness on strings and numbers is modelled explicitly.
-/

namespace DevQuoteBot

/-- JS falsiness for an optional string environment value:
`undefined`/missing or the empty string are falsy. -/
def jsFalsyStr : Option String → Bool
  | none => true
  | some s => s == ""

/-- JS `v || d` for an optional string `v` (used for `t.name || 'Untitled'`
and `t.status?.status || 'unknown'`): falsy (absent or empty) selects `d`. -/
def jsOrStr (v : Option String) (d : String) : String :=
  match v with
  | none => d
  | some s => if s = "" then d else s

/-! ### Literal substring removal (JS `s.split(t).join('')`) -/

/-- One left-to-right scan removing every non-overlapping occurrence of `t`,
the embedding of JS `s.split(t).join('')`.  On a match the scan resumes
after the matched part. -/
def removeAllL (t : List Char) : List Char → List Char
  | [] => []
  | c :: rest =>
    if !t.isEmpty && t.isPrefixOf (c :: rest) then
      removeAllL t (List.drop (t.length - 1) rest)
    else
      c :: removeAllL t rest
termination_by s => s.length
decreasing_by
  · simp only [List.length_drop, List.length_cons]
    omega
  · simp

/-- String version of `removeAllL`. -/
def removeAllS (s t : String) : String :=
  ⟨removeAllL t.data s.data⟩

/-- Does `t` occur as a contiguous sublist of `s`?  (Scanning check.) -/
def containsL (t s : List Char) : Bool :=
  match s with
  | [] => t.isEmpty
  | _ :: rest => t.isPrefixOf s || containsL t rest

/-- Does the needle occur as a substring of the haystack? -/
def containsStr (hay needle : String) : Bool :=
  containsL needle.data hay.data

/-- Is there an occurrence of `t` starting at a position strictly inside the
prefix `a` of `a ++ rest` (possibly extending into `rest`)? -/
def occursBefore (t a rest : List Char) : Bool :=
  match a with
  | [] => false
  | c :: a2 => t.isPrefixOf (c :: (a2 ++ rest)) || occursBefore t a2 rest

/-! ### Quote generator (`generateQuote` in `src/index.js`) -/

/-- JS `String.prototype.trim`: whitespace stripped from both ends,
character by character. -/
def trimChars (cs : List Char) : List Char :=
  ((cs.dropWhile Char.isWhitespace).reverse.dropWhile Char.isWhitespace).reverse

/-- String version of `trimChars`. -/
def strTrim (s : String) : String :=
  ⟨trimChars s.data⟩

/-- The fixed sentinel/control tokens stripped from AI output
(`tokens` array in `generateQuote`). -/
def sentinelTokens : List String :=
  ["<|begin_of_text|>", "<|end_of_text|>", "<｜begin▁of▁sentence｜>",
   "<s>", "</s>", "<BOS>", "<EOS>", "<|im_start|>", "<|im_end|>"]

/-- Post-processing of a successful response's raw content:
`for (const t of tokens) cleaned = cleaned.split(t).join(''); cleaned.trim()`. -/
def cleanContent (raw : String) : String :=
  strTrim (sentinelTokens.foldl (fun acc tk => removeAllS acc tk) raw)

/-- Template part before the optional context block
(`buildPrompt` in `src/index.js`). -/
def promptIntro : String :=
  "\nYou are a friendly CTO sending a single short motivational quote to a small dev team shipping products in Myanmar.\n"

/-- Template part after the optional context block. -/
def promptReqs : String :=
  "Requirements:\n- 1–2 sentences MAX, punchy.\n- Focus on engineering momentum, code quality, learning, teamwork, shipping.\n- Avoid clichés; be concrete.\n- If LANGUAGE=EN -> English only.\n- If LANGUAGE=MM -> Myanmar (Burmese) only.\n- If LANGUAGE=EN_MM -> Give English line then Myanmar line on the next line.\n\nReturn ONLY the quote text. No extra commentary."

/-- `buildPrompt(contextLines)` from `src/index.js`: the fixed template with
a `Context:` bulleted block exactly when context lines exist. -/
def buildPrompt (contextLines : List String) : String :=
  let ctx := if contextLines.length != 0 then
      "Context:\n- " ++ String.intercalate "\n- " contextLines ++ "\n"
    else ""
  promptIntro ++ ctx ++ promptReqs

/-- Shape of the parsed JSON body of one generation response, as consumed by
the code: `data?.choices?.[0]?.message?.content` and `data?.error?.message`. -/
structure RespData where
  content : Option String
  errMessage : Option String
deriving DecidableEq

/-- Outcome of one `fetch` of the generation endpoint: either the fetch
itself throws (network failure), or a response arrives with `ok`,
`status`, and a parsed JSON body (`none` models `res.json()` rejecting,
which the code maps to `null` via `.catch(() => null)`). -/
inductive FetchResult
  | exn
  | resp (ok : Bool) (status : Nat) (data : Option RespData)
deriving DecidableEq

/-- `data?.choices?.[0]?.message?.content || ''`. -/
def rawContent : Option RespData → String
  | none => ""
  | some d => d.content.getD ""

/-- Observable outcome of `generateQuote`: the returned value (`none` models
JS `null`), the request bodies' prompts in order of the fetch attempts,
and the backoff waits performed (ms). -/
structure GenResult where
  result : Option String
  requests : List String
  waits : List Nat
deriving DecidableEq

/-- The `for (let attempt = 0; attempt < 3; attempt++)` loop of
`generateQuote`.  `fuel` is the number of remaining iterations, `attempt`
the current index.  A thrown fetch is caught by the surrounding
`try`/`catch`, which returns `null`. -/
def genLoop (p : String) (env : Nat → FetchResult) :
    Nat → Nat → List String → List Nat → GenResult
  | 0, _, reqs, waits => ⟨none, reqs, waits⟩
  | fuel + 1, attempt, reqs, waits =>
    match env attempt with
    | .exn => ⟨none, reqs ++ [p], waits⟩
    | .resp ok status data =>
      if ok then
        ⟨some (cleanContent (rawContent data)), reqs ++ [p], waits⟩
      else if status = 429 then
        genLoop p env fuel (attempt + 1) (reqs ++ [p]) (waits ++ [600 * (attempt + 1)])
      else
        ⟨none, reqs ++ [p], waits⟩

/-- `generateQuote(contextLines)` from `src/index.js`, with the behaviour of
the generation endpoint supplied as `env` (outcome of the fetch on each
attempt index). -/
def generateQuote (contextLines : List String) (env : Nat → FetchResult) : GenResult :=
  genLoop (buildPrompt contextLines) env 3 0 [] []

/-- Is this response the retryable case (`!res.ok` and `res.status === 429`)? -/
def isRetryable : FetchResult → Bool
  | .resp ok status _ => !ok && status == 429
  | .exn => false

/-! ### Numeric configuration (`Number(x ?? '') || default`) -/

/-- Result of JS `Number(...)` coercion: a numeric value or `NaN`. -/
inductive JSNum
  | nan
  | num (q : ℚ)
deriving DecidableEq

/-- Value of digit characters read as a decimal natural number. -/
def digitsToNat (cs : List Char) : Nat :=
  cs.foldl (fun n c => 10 * n + (c.toNat - '0'.toNat)) 0

/-- Parse an unsigned decimal literal (`digits`, `digits.digits`,
`.digits`, `digits.`). -/
def parseDecimal (cs : List Char) : Option ℚ :=
  let ip := cs.takeWhile Char.isDigit
  let rest := cs.dropWhile Char.isDigit
  match rest with
  | [] => if ip.isEmpty then none else some (digitsToNat ip : ℚ)
  | '.' :: frac =>
    if frac.all Char.isDigit && !(ip.isEmpty && frac.isEmpty) then
      some ((digitsToNat ip : ℚ) + (digitsToNat frac : ℚ) / ((10 : ℚ) ^ frac.length))
    else none
  | _ => none

/-- Modelled from the spec: the platform's `Number(string)` coercion (the
code calls the JS builtin, which is outside the repository).  Restricted to
trimmed decimal literals with optional sign; the empty string coerces to
`0`; anything else is `NaN`. -/
def jsNumber (s : String) : JSNum :=
  let t := strTrim s
  match t.data with
  | [] => .num 0
  | '-' :: cs => match parseDecimal cs with
    | some q => .num (-q)
    | none => .nan
  | '+' :: cs => match parseDecimal cs with
    | some q => .num q
    | none => .nan
  | cs => match parseDecimal cs with
    | some q => .num q
    | none => .nan

/-- JS `v || d` on a number `v`: `NaN` and `0` are falsy and select `d`. -/
def jsOrNum (v : JSNum) (d : ℚ) : ℚ :=
  match v with
  | .nan => d
  | .num q => if q = 0 then d else q

/-- `const maxTokens = Number(AI_MAX_TOKENS ?? '') || 120;` with the raw
environment value (absent = `none`). -/
def maxTokens (envVal : Option String) : ℚ :=
  jsOrNum (jsNumber (envVal.getD "")) 120

/-- `const temperature = Number(AI_TEMPERATURE ?? '') || 0.8;`. -/
def temperature (envVal : Option String) : ℚ :=
  jsOrNum (jsNumber (envVal.getD "")) (8 / 10)

/-! ### Context fetcher (`fetchClickUpContext` in `src/index.js`) -/

/-- Fields of one upstream task the code reads: `t.name` and
`t.status?.status`. -/
structure CUTask where
  name : Option String
  status : Option String
deriving DecidableEq

/-- Parsed JSON body of the task-list response; the code reads only
`data.tasks`. -/
structure CUData where
  tasks : Option (List CUTask)
deriving DecidableEq

/-- Outcome of the ClickUp fetch: the fetch throws, `res.json()` rejects
(no `.catch` here, so it throws into the surrounding `try`), or a response
with some HTTP status and parsed body arrives (`none` body models a JSON
`null`, whose field access throws).  The code never reads `res.status`. -/
inductive CUEnv
  | fetchThrows
  | jsonThrows
  | ok (status : Nat) (body : Option CUData)
deriving DecidableEq

/-- `` `Task "${title}" — status: ${status}` `` with the `'Untitled'` /
`'unknown'` substitutions. -/
def formatTask (t : CUTask) : String :=
  "Task \"" ++ jsOrStr t.name "Untitled" ++ "\" — status: " ++ jsOrStr t.status "unknown"

/-- `fetchClickUpContext()` from `src/index.js`: credentials from the
environment, upstream outcome from `env`.  Every thrown error is caught
and yields `[]`. -/
def fetchClickUpContext (cuToken cuTeamId : Option String) (env : CUEnv) : List String :=
  if jsFalsyStr cuToken || jsFalsyStr cuTeamId then []
  else
    match env with
    | .fetchThrows => []
    | .jsonThrows => []
    | .ok _ none => []
    | .ok _ (some data) => ((data.tasks.getD []).take 5).map formatTask

/-! ### Fallback selection and delivery (`postDailyQuote` in `src/index.js`) -/

/-- The `fallbacksEN` array. -/
def fallbacksEN : List String :=
  ["Small commits, big momentum. Ship something today.",
   "Readability is a feature. Future you will thank present you."]

/-- The `fallbacksMM` array. -/
def fallbacksMM : List String :=
  ["နေ့တိုင်းအနည်းငယ်တိုးတက်ပါ—အဆုံးမှာကြီးမားတဲ့အမှတ်တံဆိပ်ဖြစ်မယ်။",
   "စိတ်ရှည်ပြီး ကုဒ်ကို သန့်ရှင်း စာလုံးဖတ်ရလွယ်အောင် ရေးပါ—နောင်တချိန်က သင့်ကိုယ်တိုင်ပဲ ကျေးဇူးတင်မယ်။"]

/-- The fallback text selected by the language code
(the `if (!text)` branch body of `postDailyQuote`). -/
def fallbackFor (language : String) : String :=
  if language = "MM" then fallbacksMM.getD 0 ""
  else if language = "EN_MM" then fallbacksEN.getD 0 "" ++ "\n" ++ fallbacksMM.getD 0 ""
  else fallbacksEN.getD 0 ""

/-- `let text = quote; if (!text) ...`: a `null` or empty generation result
is replaced by the language-selected fallback. -/
def finalText (language : String) (quote : Option String) : String :=
  match quote with
  | none => fallbackFor language
  | some s => if s = "" then fallbackFor language else s

/-- The fixed message header. -/
def header : String := "🌞 **Daily Dev Motivation**"

/-- Channel types the dispatcher distinguishes
(`channel.type !== ChannelType.GuildText`). -/
inductive ChannelType
  | guildText
  | dm
  | guildVoice
  | guildCategory
deriving DecidableEq

/-- The only channel field the dispatcher reads. -/
structure Channel where
  type : ChannelType
deriving DecidableEq

/-- Outcome of the webhook `fetch`: a network failure (throws) or a
response with `ok` flag and status.  The code never reads the response. -/
inductive WebhookOutcome
  | throws
  | resp (ok : Bool) (status : Nat)
deriving DecidableEq

/-- Log lines the dispatcher emits. -/
inductive LogEvent
  | sentWebhook
  | webhookFailed
  | channelError
  | sentBot
deriving DecidableEq

/-- Observable trace of one `postDailyQuote` run: the composed payload
text, webhook POST attempts as `(url, content)` pairs, channel-resolution
attempts by id, `channel.send` attempts, dispatcher log lines, and whether
an exception escaped the function. -/
structure PostTrace where
  payload : String
  posts : List (String × String)
  resolutions : List String
  sends : List String
  logs : List LogEvent
  threw : Bool
deriving DecidableEq

/-- Startup configuration consumed by `postDailyQuote`:
`LANGUAGE`, `DISCORD_WEBHOOK_URL`, `DISCORD_CHANNEL_ID`, `CLICKUP_TOKEN`,
`CLICKUP_TEAM_ID` (absent = `none`). -/
structure BotConfig where
  language : String
  webhookUrl : Option String
  channelId : String
  cuToken : Option String
  cuTeamId : Option String

/-- `const USE_WEBHOOK = !!DISCORD_WEBHOOK_URL;`. -/
def useWebhook (url : Option String) : Bool :=
  !(jsFalsyStr url)

/-- Per-run external behaviour: ClickUp outcome, generation-endpoint
outcome per attempt, webhook outcome, channel resolution result
(`none` = resolution failed), and whether `channel.send` would throw. -/
structure RunEnv where
  cu : CUEnv
  gen : Nat → FetchResult
  webhook : WebhookOutcome
  channel : Option Channel
  sendThrows : Bool

/-- The delivery tail of `postDailyQuote`: webhook POST in webhook mode
(response ignored, network error caught and logged), otherwise channel
resolution, type check, and `channel.send` (whose exception would escape —
there is no surrounding catch). -/
def dispatch (cfg : BotConfig) (env : RunEnv) (payload : String) : PostTrace :=
  if useWebhook cfg.webhookUrl then
    match env.webhook with
    | .throws => ⟨payload, [(cfg.webhookUrl.getD "", payload)], [], [], [.webhookFailed], false⟩
    | .resp _ _ => ⟨payload, [(cfg.webhookUrl.getD "", payload)], [], [], [.sentWebhook], false⟩
  else
    match env.channel with
    | none => ⟨payload, [], [cfg.channelId], [], [.channelError], false⟩
    | some ch =>
      if ch.type = ChannelType.guildText then
        if env.sendThrows then ⟨payload, [], [cfg.channelId], [payload], [], true⟩
        else ⟨payload, [], [cfg.channelId], [payload], [.sentBot], false⟩
      else ⟨payload, [], [cfg.channelId], [], [.channelError], false⟩

/-- `postDailyQuote()` from `src/index.js`: fetch context, generate the
quote, substitute the fallback on a falsy result, compose the payload,
deliver. -/
def postDailyQuote (cfg : BotConfig) (env : RunEnv) : PostTrace :=
  dispatch cfg env
    (header ++ "\n" ++
      finalText cfg.language
        ((generateQuote (fetchClickUpContext cfg.cuToken cfg.cuTeamId env.cu) env.gen).result))

/-! ## Helper lemmas -/

theorem string_data_append (a b : String) : (a ++ b).data = a.data ++ b.data := rfl

theorem isPrefixOf_append_self (t b : List Char) : t.isPrefixOf (t ++ b) = true := by
  induction t with
  | nil => cases b <;> rfl
  | cons c t2 ih => simp [List.isPrefixOf, ih]

theorem removeAllL_of_not_contains (t s : List Char) (h : containsL t s = false) :
    removeAllL t s = s := by
  induction s with
  | nil => simp [removeAllL]
  | cons c rest ih =>
    rw [containsL] at h
    simp only [Bool.or_eq_false_iff] at h
    rw [removeAllL]
    simp [h.1, ih h.2]

theorem removeAllL_append_of_no_occur (t a rest : List Char)
    (h : occursBefore t a rest = false) :
    removeAllL t (a ++ rest) = a ++ removeAllL t rest := by
  induction a with
  | nil => simp
  | cons c a2 ih =>
    rw [occursBefore] at h
    simp only [Bool.or_eq_false_iff] at h
    rw [List.cons_append, removeAllL]
    simp [h.1, ih h.2]

theorem removeAllL_self_append (t b : List Char) (ht : t ≠ []) :
    removeAllL t (t ++ b) = removeAllL t b := by
  cases t with
  | nil => exact absurd rfl ht
  | cons c t2 =>
    rw [List.cons_append, removeAllL]
    have hpre : (c :: t2).isPrefixOf (c :: (t2 ++ b)) = true := by
      rw [← List.cons_append]
      exact isPrefixOf_append_self _ _
    simp only [hpre, List.isEmpty_cons, Bool.not_false, Bool.and_self, if_true]
    have hlen : (c :: t2).length - 1 = t2.length := by simp
    rw [hlen, List.drop_left]

theorem containsL_append_right (t a b : List Char) (h : containsL t (a ++ b) = false) :
    containsL t b = false := by
  induction a with
  | nil => exact h
  | cons c a2 ih =>
    rw [List.cons_append, containsL] at h
    simp only [Bool.or_eq_false_iff] at h
    exact ih h.2

theorem containsL_append_middle (t a b : List Char) (ht : t ≠ []) :
    containsL t (a ++ (t ++ b)) = true := by
  induction a with
  | nil =>
    cases t with
    | nil => exact absurd rfl ht
    | cons c t2 =>
      rw [List.nil_append, List.cons_append, containsL]
      rw [← List.cons_append]
      simp [isPrefixOf_append_self]
  | cons c a2 ih =>
    rw [List.cons_append, containsL]
    simp [ih]

theorem foldl_removeAllS_id (L : List String) (s : String)
    (h : ∀ u ∈ L, containsStr s u = false) :
    L.foldl (fun acc tk => removeAllS acc tk) s = s := by
  induction L with
  | nil => rfl
  | cons u L2 ih =>
    have h1 : removeAllS s u = s := by
      unfold removeAllS
      rw [removeAllL_of_not_contains u.data s.data (h u (by simp))]
    rw [List.foldl_cons, h1]
    exact ih (fun v hv => h v (by simp [hv]))

theorem removeAllS_middle (a tk b : String) (htk : tk.data ≠ [])
    (h2 : occursBefore tk.data a.data (tk.data ++ b.data) = false)
    (hb : containsL tk.data b.data = false) :
    removeAllS (a ++ tk ++ b) tk = a ++ b := by
  unfold removeAllS
  have hdata : (a ++ tk ++ b).data = a.data ++ (tk.data ++ b.data) := by
    rw [string_data_append, string_data_append, List.append_assoc]
  rw [hdata, removeAllL_append_of_no_occur _ _ _ h2, removeAllL_self_append _ _ htk,
      removeAllL_of_not_contains _ _ hb, ← string_data_append]

theorem sentinel_nonempty : ∀ u ∈ sentinelTokens, u.data ≠ [] := by decide

theorem sentinel_nodup : sentinelTokens.Nodup := by decide

theorem dispatch_payload (cfg : BotConfig) (env : RunEnv) (p : String) :
    (dispatch cfg env p).payload = p := by
  unfold dispatch
  split
  · split <;> rfl
  · split
    · rfl
    · split
      · split <;> rfl
      · rfl

theorem postDailyQuote_payload (cfg : BotConfig) (env : RunEnv) :
    (postDailyQuote cfg env).payload =
      header ++ "\n" ++ finalText cfg.language
        ((generateQuote (fetchClickUpContext cfg.cuToken cfg.cuTeamId env.cu) env.gen).result) := by
  unfold postDailyQuote
  exact dispatch_payload cfg env _

/-! ## Claim theorems -/

/-- C4: post-processing removes each configured sentinel token by literal
substring removal and then trims surrounding whitespace; for an input
consisting of a sentinel token `tk` concatenated with surrounding real
text `a`, `b` (text in which no sentinel token occurs, alone or in
combination with the embedded token), the cleaned output is the
surrounding text preserved verbatim with the token removed, then
trimmed. -/
theorem cleanContent_removes_sentinel (tk a b : String)
    (htk : tk ∈ sentinelTokens)
    (hother : ∀ u ∈ sentinelTokens, u ≠ tk → containsStr (a ++ tk ++ b) u = false)
    (hbefore : occursBefore tk.data a.data (tk.data ++ b.data) = false)
    (hrest : ∀ u ∈ sentinelTokens, containsStr (a ++ b) u = false) :
    cleanContent (a ++ tk ++ b) = strTrim (a ++ b) := by
  unfold cleanContent
  obtain ⟨pre, post, hsp⟩ := List.append_of_mem htk
  have hnd := sentinel_nodup
  rw [hsp] at hnd
  have hdisj := List.disjoint_of_nodup_append hnd
  have htkpre : tk ∉ pre := fun hmem => hdisj hmem (List.mem_cons_self _ _)
  have hfold :
      sentinelTokens.foldl (fun acc u => removeAllS acc u) (a ++ tk ++ b) = a ++ b := by
    rw [hsp, List.foldl_append, List.foldl_cons]
    have hpre_id : List.foldl (fun acc u => removeAllS acc u) (a ++ tk ++ b) pre
        = a ++ tk ++ b := by
      refine foldl_removeAllS_id pre _ (fun u hu => ?_)
      refine hother u (hsp ▸ List.mem_append_left _ hu) (fun he => htkpre ?_)
      rw [← he]
      exact hu
    rw [hpre_id]
    have hbb : containsL tk.data b.data = false := by
      have hab : containsStr (a ++ b) tk = false := hrest tk htk
      unfold containsStr at hab
      rw [string_data_append] at hab
      exact containsL_append_right tk.data a.data b.data hab
    rw [removeAllS_middle a tk b (sentinel_nonempty tk htk) hbefore hbb]
    refine foldl_removeAllS_id post _ (fun u hu => ?_)
    exact hrest u (hsp ▸ List.mem_append_right _ (List.mem_cons_of_mem _ hu))
  rw [hfold]

set_option maxRecDepth 10000 in
/-- Witness for C4 at a concrete sentinel token and surrounding text. -/
theorem cleanContent_removes_sentinel_witness :
    cleanContent ("Keep shipping" ++ "<s>" ++ " every day.") =
      strTrim ("Keep shipping" ++ " every day.") :=
  cleanContent_removes_sentinel "<s>" "Keep shipping" " every day."
    (by decide) (by decide) (by decide) (by decide)

set_option maxRecDepth 10000 in
/-- C10: `buildPrompt` is a pure deterministic function of the context
lines; the prompt has a `Context:` block with each line prefixed by `- `
exactly when the list is non-empty, and with an empty list the prompt
contains no `Context:` block. -/
theorem buildPrompt_spec :
    (∀ l1 l2 : List String, l1 = l2 → buildPrompt l1 = buildPrompt l2)
    ∧ (∀ l : List String, l ≠ [] →
        buildPrompt l =
          promptIntro ++ ("Context:\n- " ++ String.intercalate "\n- " l ++ "\n") ++ promptReqs)
    ∧ (∀ l : List String, l ≠ [] → containsStr (buildPrompt l) "Context:" = true)
    ∧ containsStr (buildPrompt []) "Context:" = false := by
  refine ⟨fun l1 l2 h => by rw [h], fun l hl => ?_, fun l hl => ?_, by decide⟩
  · unfold buildPrompt
    have hne : (l.length != 0) = true := by
      simp only [bne_iff_ne, ne_eq, List.length_eq_zero]
      exact hl
    simp [hne]
  · have hb : buildPrompt l =
        promptIntro ++ ("Context:\n- " ++ String.intercalate "\n- " l ++ "\n") ++ promptReqs := by
      unfold buildPrompt
      have hne : (l.length != 0) = true := by
        simp only [bne_iff_ne, ne_eq, List.length_eq_zero]
        exact hl
      simp [hne]
    rw [hb]
    unfold containsStr
    have hshape :
        (promptIntro ++ ("Context:\n- " ++ String.intercalate "\n- " l ++ "\n") ++ promptReqs).data
          = promptIntro.data ++ ("Context:".data ++
              (("\n- " ++ String.intercalate "\n- " l ++ "\n").data ++ promptReqs.data)) := by
      rw [string_data_append, string_data_append, string_data_append, string_data_append]
      simp [List.append_assoc]
    rw [hshape]
    exact containsL_append_middle _ _ _ (by decide)

/-- Witness for C10 at a concrete non-empty context list. -/
theorem buildPrompt_spec_witness :
    buildPrompt ["Task A", "Task B"] =
      promptIntro ++ ("Context:\n- " ++ String.intercalate "\n- " ["Task A", "Task B"] ++ "\n")
        ++ promptReqs
    ∧ containsStr (buildPrompt ["Task A", "Task B"]) "Context:" = true :=
  ⟨buildPrompt_spec.2.1 ["Task A", "Task B"] (by decide),
   buildPrompt_spec.2.2.1 ["Task A", "Task B"] (by decide)⟩

/-- C3: when generation yields no result (a `null`, or an empty string,
which the caller's falsiness check treats the same), the delivered text is
determined solely by the language code: `MM` gives Burmese line 1, `EN_MM`
gives English line 1, a line break, then Burmese line 1, and any other
value gives English line 1; with language `EN` the delivered message is
the fixed header, a newline, and English fallback line 1. -/
theorem fallback_selection (quote : Option String)
    (hq : quote = none ∨ quote = some "") :
    finalText "MM" quote = fallbacksMM.getD 0 ""
    ∧ finalText "EN_MM" quote = fallbacksEN.getD 0 "" ++ "\n" ++ fallbacksMM.getD 0 ""
    ∧ (∀ lang : String, lang ≠ "MM" → lang ≠ "EN_MM" →
        finalText lang quote = fallbacksEN.getD 0 "")
    ∧ (∀ (cfg : BotConfig) (renv : RunEnv), cfg.language = "EN" →
        (generateQuote (fetchClickUpContext cfg.cuToken cfg.cuTeamId renv.cu) renv.gen).result
          = quote →
        (postDailyQuote cfg renv).payload = header ++ "\n" ++ fallbacksEN.getD 0 "") := by
  have hft : ∀ lang : String, finalText lang quote = fallbackFor lang := by
    intro lang
    rcases hq with h | h <;> simp [h, finalText]
  refine ⟨?_, ?_, ?_, ?_⟩
  · rw [hft]; rfl
  · rw [hft]; rfl
  · intro lang h1 h2
    rw [hft]
    unfold fallbackFor
    rw [if_neg h1, if_neg h2]
  · intro cfg renv hlang hgen
    rw [postDailyQuote_payload, hgen, hlang, hft]
    rfl

/-- Witness for C3 at `quote = none`, a concrete other language code, and
a concrete failed pipeline run with language `EN`. -/
theorem fallback_selection_witness :
    finalText "MM" none = fallbacksMM.getD 0 ""
    ∧ finalText "EN" none = fallbacksEN.getD 0 ""
    ∧ (postDailyQuote ⟨"EN", none, "123", none, none⟩
        ⟨CUEnv.fetchThrows, fun _ => FetchResult.exn, WebhookOutcome.throws,
         some ⟨ChannelType.guildText⟩, false⟩).payload =
        header ++ "\n" ++ fallbacksEN.getD 0 "" := by
  have h := fallback_selection none (Or.inl rfl)
  refine ⟨h.1, h.2.2.1 "EN" (by decide) (by decide), ?_⟩
  exact h.2.2.2 ⟨"EN", none, "123", none, none⟩
    ⟨CUEnv.fetchThrows, fun _ => FetchResult.exn, WebhookOutcome.throws,
     some ⟨ChannelType.guildText⟩, false⟩ rfl rfl

/-- C9 counterexample: the configuration value `"0"` is numeric, but the
code's `|| default` treats `0` as falsy, so the default `120` is applied
instead of the configured `0` — refuting "any numeric value supplied by
configuration (including 0) is used as given". -/
theorem maxTokens_zero_counterexample :
    jsNumber "0" = JSNum.num 0 ∧ maxTokens (some "0") = 120 ∧ (120 : ℚ) ≠ 0 := by
  refine ⟨?_, ?_, by norm_num⟩
  · show JSNum.num ((digitsToNat ['0'] : ℕ) : ℚ) = JSNum.num 0
    norm_num [digitsToNat]
  · rfl

/-- C9 (amended): the defaults (max tokens 120, temperature 0.8) are
applied exactly when the environment value is unset, non-numeric, or a
numeric value equal to 0 (JS falsiness of the coerced number); any
nonzero numeric value is used as given. -/
theorem numeric_config_defaults :
    maxTokens none = 120
    ∧ temperature none = 8 / 10
    ∧ (∀ s : String, jsNumber s = JSNum.nan → maxTokens (some s) = 120)
    ∧ (∀ s : String, jsNumber s = JSNum.nan → temperature (some s) = 8 / 10)
    ∧ (∀ s : String, jsNumber s = JSNum.num 0 → maxTokens (some s) = 120)
    ∧ (∀ s : String, jsNumber s = JSNum.num 0 → temperature (some s) = 8 / 10)
    ∧ (∀ (s : String) (q : ℚ), jsNumber s = JSNum.num q → q ≠ 0 →
        maxTokens (some s) = q)
    ∧ (∀ (s : String) (q : ℚ), jsNumber s = JSNum.num q → q ≠ 0 →
        temperature (some s) = q) := by
  refine ⟨rfl, rfl, ?_, ?_, ?_, ?_, ?_, ?_⟩
  · intro s h
    unfold maxTokens
    simp [h, jsOrNum]
  · intro s h
    unfold temperature
    simp [h, jsOrNum]
  · intro s h
    unfold maxTokens
    simp [h, jsOrNum]
  · intro s h
    unfold temperature
    simp [h, jsOrNum]
  · intro s q h hq
    unfold maxTokens
    simp [h, jsOrNum, hq]
  · intro s q h hq
    unfold temperature
    simp [h, jsOrNum, hq]

/-- Witness for C9 (amended) at concrete environment values. -/
theorem numeric_config_defaults_witness :
    maxTokens (some "abc") = 120 ∧ maxTokens (some "64") = 64
    ∧ temperature (some "2") = 2 ∧ temperature (some "0") = 8 / 10 := by
  have h64 : jsNumber "64" = JSNum.num 64 := by
    show JSNum.num ((digitsToNat ['6', '4'] : ℕ) : ℚ) = JSNum.num 64
    have hd : digitsToNat ['6', '4'] = 64 := by decide
    rw [hd]
    norm_num
  have h2 : jsNumber "2" = JSNum.num 2 := by
    show JSNum.num ((digitsToNat ['2'] : ℕ) : ℚ) = JSNum.num 2
    have hd : digitsToNat ['2'] = 2 := by decide
    rw [hd]
    norm_num
  have h0 : jsNumber "0" = JSNum.num 0 := by
    show JSNum.num ((digitsToNat ['0'] : ℕ) : ℚ) = JSNum.num 0
    have hd : digitsToNat ['0'] = 0 := by decide
    rw [hd]
    norm_num
  refine ⟨numeric_config_defaults.2.2.1 "abc" rfl, ?_, ?_, ?_⟩
  · exact numeric_config_defaults.2.2.2.2.2.2.1 "64" 64 h64 (by norm_num)
  · exact numeric_config_defaults.2.2.2.2.2.2.2 "2" 2 h2 (by norm_num)
  · exact numeric_config_defaults.2.2.2.2.2.1 "0" h0

theorem isRetryable_eq (x : FetchResult) (h : isRetryable x = true) :
    ∃ d, x = FetchResult.resp false 429 d := by
  cases x with
  | exn => simp [isRetryable] at h
  | resp ok status data =>
    simp only [isRetryable, Bool.and_eq_true, Bool.not_eq_true', beq_iff_eq] at h
    exact ⟨data, by rw [h.1, h.2]⟩

theorem genLoop_requests_length (p : String) (env : Nat → FetchResult) :
    ∀ (f a : Nat) (r : List String) (w : List Nat),
      (genLoop p env f a r w).requests.length ≤ r.length + f := by
  intro f
  induction f with
  | zero => intro a r w; simp [genLoop]
  | succ f ih =>
    intro a r w
    rw [genLoop]
    cases henv : env a with
    | exn => simp
    | resp ok status data =>
      cases ok with
      | true => simp
      | false =>
        by_cases hst : status = 429
        · simp only [hst, Bool.false_eq_true, if_false, if_pos rfl]
          calc (genLoop p env f (a + 1) (r ++ [p]) (w ++ [600 * (a + 1)])).requests.length
              ≤ (r ++ [p]).length + f := ih (a + 1) (r ++ [p]) (w ++ [600 * (a + 1)])
            _ ≤ r.length + (f + 1) := by simp; omega
        · simp [hst]

/-- C1: at most 3 HTTP attempts per call; a 429 on attempt `i` waits
`600*(i+1)` ms and retries the same prompt; any other non-success response
stops immediately with the no-result value; three consecutive 429s give
the no-result value with exactly 3 attempts; a success on any reachable
attempt returns the cleaned payload. -/
theorem generateQuote_retry_policy (contextLines : List String) (env : Nat → FetchResult) :
    (generateQuote contextLines env).requests.length ≤ 3
    ∧ ((∀ i, i < 3 → isRetryable (env i) = true) →
        generateQuote contextLines env =
          ⟨none, List.replicate 3 (buildPrompt contextLines), [600, 1200, 1800]⟩)
    ∧ (∀ k st d, k < 3 → (∀ j, j < k → isRetryable (env j) = true) →
        env k = FetchResult.resp true st d →
        generateQuote contextLines env =
          ⟨some (cleanContent (rawContent d)),
           List.replicate (k + 1) (buildPrompt contextLines),
           (List.range k).map (fun i => 600 * (i + 1))⟩)
    ∧ (∀ k st d, k < 3 → (∀ j, j < k → isRetryable (env j) = true) →
        env k = FetchResult.resp false st d → st ≠ 429 →
        (generateQuote contextLines env).result = none
        ∧ (generateQuote contextLines env).requests =
            List.replicate (k + 1) (buildPrompt contextLines)) := by
  refine ⟨genLoop_requests_length _ env 3 0 [] [], ?_, ?_, ?_⟩
  · intro h
    obtain ⟨d0, h0⟩ := isRetryable_eq _ (h 0 (by norm_num))
    obtain ⟨d1, h1⟩ := isRetryable_eq _ (h 1 (by norm_num))
    obtain ⟨d2, h2⟩ := isRetryable_eq _ (h 2 (by norm_num))
    unfold generateQuote
    simp [genLoop, h0, h1, h2, List.replicate]
  · intro k st d hk hpre hs
    interval_cases k
    · unfold generateQuote
      simp [genLoop, hs, List.replicate]
    · obtain ⟨d0, h0⟩ := isRetryable_eq _ (hpre 0 (by norm_num))
      unfold generateQuote
      simp [genLoop, h0, hs, List.replicate]
      norm_num [List.range_succ]
    · obtain ⟨d0, h0⟩ := isRetryable_eq _ (hpre 0 (by norm_num))
      obtain ⟨d1, h1⟩ := isRetryable_eq _ (hpre 1 (by norm_num))
      unfold generateQuote
      simp [genLoop, h0, h1, hs, List.replicate]
      norm_num [List.range_succ]
  · intro k st d hk hpre hs hst
    interval_cases k
    · unfold generateQuote
      simp [genLoop, hs, hst, List.replicate]
    · obtain ⟨d0, h0⟩ := isRetryable_eq _ (hpre 0 (by norm_num))
      unfold generateQuote
      simp [genLoop, h0, hs, hst, List.replicate]
    · obtain ⟨d0, h0⟩ := isRetryable_eq _ (hpre 0 (by norm_num))
      obtain ⟨d1, h1⟩ := isRetryable_eq _ (hpre 1 (by norm_num))
      unfold generateQuote
      simp [genLoop, h0, h1, hs, hst, List.replicate]

/-- Witness for C1: a 429 on attempt 0 followed by a success on attempt 1
yields the cleaned payload after one 600 ms wait and two attempts. -/
theorem generateQuote_retry_policy_witness :
    generateQuote []
      (fun i => if i = 0 then FetchResult.resp false 429 none
                else FetchResult.resp true 200 (some ⟨some " Ship it! ", none⟩)) =
      ⟨some "Ship it!", [buildPrompt [], buildPrompt []], [600]⟩ := by
  have h := (generateQuote_retry_policy []
    (fun i => if i = 0 then FetchResult.resp false 429 none
              else FetchResult.resp true 200 (some ⟨some " Ship it! ", none⟩))).2.2.1
    1 200 (some ⟨some " Ship it! ", none⟩) (by norm_num)
    (by intro j hj; interval_cases j; simp [isRetryable]) (by simp)
  rw [h]
  have hres : cleanContent (rawContent (some ⟨some " Ship it! ", none⟩)) = "Ship it!" := by
    unfold cleanContent
    rw [foldl_removeAllS_id sentinelTokens _ (by decide)]
    decide
  rw [hres]
  norm_num [List.replicate, List.range_succ]

/-- C2: `generateQuote` never raises — a thrown fetch on any reachable
attempt, or a non-success response with a malformed JSON body, is caught
and produces the no-result value (`none`) — and whenever the generation
result is the no-result value, the pipeline's delivered payload is the
fixed header plus the language-selected fallback text. -/
theorem generateQuote_never_raises (contextLines : List String) (env : Nat → FetchResult) :
    (∀ k, k < 3 → (∀ j, j < k → isRetryable (env j) = true) →
      env k = FetchResult.exn → (generateQuote contextLines env).result = none)
    ∧ (∀ k st, k < 3 → (∀ j, j < k → isRetryable (env j) = true) →
        env k = FetchResult.resp false st none → st ≠ 429 →
        (generateQuote contextLines env).result = none)
    ∧ (∀ (cfg : BotConfig) (renv : RunEnv),
        (generateQuote (fetchClickUpContext cfg.cuToken cfg.cuTeamId renv.cu) renv.gen).result
          = none →
        (postDailyQuote cfg renv).payload = header ++ "\n" ++ fallbackFor cfg.language) := by
  refine ⟨?_, ?_, ?_⟩
  · intro k hk hpre hs
    interval_cases k
    · unfold generateQuote
      simp [genLoop, hs]
    · obtain ⟨d0, h0⟩ := isRetryable_eq _ (hpre 0 (by norm_num))
      unfold generateQuote
      simp [genLoop, h0, hs]
    · obtain ⟨d0, h0⟩ := isRetryable_eq _ (hpre 0 (by norm_num))
      obtain ⟨d1, h1⟩ := isRetryable_eq _ (hpre 1 (by norm_num))
      unfold generateQuote
      simp [genLoop, h0, h1, hs]
  · intro k st hk hpre hs hst
    interval_cases k
    · unfold generateQuote
      simp [genLoop, hs, hst]
    · obtain ⟨d0, h0⟩ := isRetryable_eq _ (hpre 0 (by norm_num))
      unfold generateQuote
      simp [genLoop, h0, hs, hst]
    · obtain ⟨d0, h0⟩ := isRetryable_eq _ (hpre 0 (by norm_num))
      obtain ⟨d1, h1⟩ := isRetryable_eq _ (hpre 1 (by norm_num))
      unfold generateQuote
      simp [genLoop, h0, h1, hs, hst]
  · intro cfg renv hq
    rw [postDailyQuote_payload, hq]
    rfl

/-- Witness for C2: a network failure on the very first attempt yields the
no-result value, and the pipeline then delivers the fallback payload. -/
theorem generateQuote_never_raises_witness :
    (generateQuote [] (fun _ => FetchResult.exn)).result = none
    ∧ (postDailyQuote
        ⟨"EN", some "https://example.com/hook", "123", none, none⟩
        ⟨CUEnv.fetchThrows, fun _ => FetchResult.exn, WebhookOutcome.resp true 204,
         none, false⟩).payload = header ++ "\n" ++ fallbackFor "EN" := by
  constructor
  · exact (generateQuote_never_raises [] (fun _ => FetchResult.exn)).1 0 (by norm_num)
      (by intro j hj; omega) rfl
  · exact (generateQuote_never_raises [] (fun _ => FetchResult.exn)).2.2
      ⟨"EN", some "https://example.com/hook", "123", none, none⟩
      ⟨CUEnv.fetchThrows, fun _ => FetchResult.exn, WebhookOutcome.resp true 204, none, false⟩
      rfl

theorem useWebhook_of_url {url : Option String} {u : String}
    (hurl : url = some u) (hu : u ≠ "") : useWebhook url = true := by
  simp [useWebhook, jsFalsyStr, hurl, hu]

theorem dispatch_webhook_throws (cfg : BotConfig) (env : RunEnv) (p u : String)
    (hurl : cfg.webhookUrl = some u) (hu : u ≠ "") (hwh : env.webhook = WebhookOutcome.throws) :
    dispatch cfg env p = ⟨p, [(u, p)], [], [], [LogEvent.webhookFailed], false⟩ := by
  unfold dispatch
  rw [if_pos (useWebhook_of_url hurl hu), hwh, hurl]
  rfl

theorem dispatch_webhook_resp (cfg : BotConfig) (env : RunEnv) (p u : String)
    (ok : Bool) (st : Nat)
    (hurl : cfg.webhookUrl = some u) (hu : u ≠ "")
    (hwh : env.webhook = WebhookOutcome.resp ok st) :
    dispatch cfg env p = ⟨p, [(u, p)], [], [], [LogEvent.sentWebhook], false⟩ := by
  unfold dispatch
  rw [if_pos (useWebhook_of_url hurl hu), hwh, hurl]
  rfl

theorem dispatch_bot_none (cfg : BotConfig) (env : RunEnv) (p : String)
    (hmode : useWebhook cfg.webhookUrl = false) (hch : env.channel = none) :
    dispatch cfg env p = ⟨p, [], [cfg.channelId], [], [LogEvent.channelError], false⟩ := by
  unfold dispatch
  rw [if_neg (by simp [hmode]), hch]

theorem dispatch_bot_wrong_type (cfg : BotConfig) (env : RunEnv) (p : String) (ch : Channel)
    (hmode : useWebhook cfg.webhookUrl = false) (hch : env.channel = some ch)
    (hty : ch.type ≠ ChannelType.guildText) :
    dispatch cfg env p = ⟨p, [], [cfg.channelId], [], [LogEvent.channelError], false⟩ := by
  unfold dispatch
  rw [if_neg (by simp [hmode]), hch]
  simp [hty]

/-- C6: with a non-empty webhook URL configured, each run issues exactly
one POST to that URL whose body content is the header, a newline, and the
final text, and performs no channel resolution and no bot-client send. -/
theorem webhook_mode_single_post (cfg : BotConfig) (env : RunEnv) (u : String)
    (hurl : cfg.webhookUrl = some u) (hu : u ≠ "") :
    (postDailyQuote cfg env).posts = [(u, (postDailyQuote cfg env).payload)]
    ∧ (postDailyQuote cfg env).payload =
        header ++ "\n" ++ finalText cfg.language
          ((generateQuote (fetchClickUpContext cfg.cuToken cfg.cuTeamId env.cu) env.gen).result)
    ∧ (postDailyQuote cfg env).resolutions = []
    ∧ (postDailyQuote cfg env).sends = [] := by
  unfold postDailyQuote
  cases hwh : env.webhook with
  | throws =>
    rw [dispatch_webhook_throws cfg env _ u hurl hu hwh]
    exact ⟨rfl, rfl, rfl, rfl⟩
  | resp ok st =>
    rw [dispatch_webhook_resp cfg env _ u ok st hurl hu hwh]
    exact ⟨rfl, rfl, rfl, rfl⟩

/-- Witness for C6 at a concrete configuration and run environment. -/
theorem webhook_mode_single_post_witness :
    (postDailyQuote ⟨"EN", some "https://example.com/hook", "123", none, none⟩
        ⟨CUEnv.fetchThrows, fun _ => FetchResult.exn, WebhookOutcome.resp true 204,
         none, false⟩).posts =
      [("https://example.com/hook",
        (postDailyQuote ⟨"EN", some "https://example.com/hook", "123", none, none⟩
          ⟨CUEnv.fetchThrows, fun _ => FetchResult.exn, WebhookOutcome.resp true 204,
           none, false⟩).payload)]
    ∧ (postDailyQuote ⟨"EN", some "https://example.com/hook", "123", none, none⟩
        ⟨CUEnv.fetchThrows, fun _ => FetchResult.exn, WebhookOutcome.resp true 204,
         none, false⟩).resolutions = [] := by
  have h := webhook_mode_single_post
    ⟨"EN", some "https://example.com/hook", "123", none, none⟩
    ⟨CUEnv.fetchThrows, fun _ => FetchResult.exn, WebhookOutcome.resp true 204, none, false⟩
    "https://example.com/hook" rfl (by decide)
  exact ⟨h.1, h.2.2.1⟩

/-- C7: in bot-client mode, when channel resolution yields nothing or the
resolved channel is not a guild text channel, the dispatcher logs an
error, performs zero send calls, and no exception escapes. -/
theorem bot_mode_bad_channel (cfg : BotConfig) (env : RunEnv)
    (hmode : useWebhook cfg.webhookUrl = false) :
    (env.channel = none →
      (postDailyQuote cfg env).logs = [LogEvent.channelError]
      ∧ (postDailyQuote cfg env).sends = []
      ∧ (postDailyQuote cfg env).threw = false)
    ∧ (∀ ch : Channel, env.channel = some ch → ch.type ≠ ChannelType.guildText →
        (postDailyQuote cfg env).logs = [LogEvent.channelError]
        ∧ (postDailyQuote cfg env).sends = []
        ∧ (postDailyQuote cfg env).threw = false) := by
  constructor
  · intro hch
    unfold postDailyQuote
    rw [dispatch_bot_none cfg env _ hmode hch]
    exact ⟨rfl, rfl, rfl⟩
  · intro ch hch hty
    unfold postDailyQuote
    rw [dispatch_bot_wrong_type cfg env _ ch hmode hch hty]
    exact ⟨rfl, rfl, rfl⟩

/-- Witness for C7: a configured id that resolves to a DM channel. -/
theorem bot_mode_bad_channel_witness :
    (postDailyQuote ⟨"EN", none, "123", none, none⟩
        ⟨CUEnv.fetchThrows, fun _ => FetchResult.exn, WebhookOutcome.throws,
         some ⟨ChannelType.dm⟩, false⟩).logs = [LogEvent.channelError]
    ∧ (postDailyQuote ⟨"EN", none, "123", none, none⟩
        ⟨CUEnv.fetchThrows, fun _ => FetchResult.exn, WebhookOutcome.throws,
         some ⟨ChannelType.dm⟩, false⟩).sends = []
    ∧ (postDailyQuote ⟨"EN", none, "123", none, none⟩
        ⟨CUEnv.fetchThrows, fun _ => FetchResult.exn, WebhookOutcome.throws,
         some ⟨ChannelType.dm⟩, false⟩).threw = false :=
  (bot_mode_bad_channel ⟨"EN", none, "123", none, none⟩
    ⟨CUEnv.fetchThrows, fun _ => FetchResult.exn, WebhookOutcome.throws,
     some ⟨ChannelType.dm⟩, false⟩ rfl).2 ⟨ChannelType.dm⟩ rfl (by decide)

/-- C8 counterexample: with a webhook configured, a response with
non-success HTTP status 500 is not detected — the dispatcher logs the
success line and no failure is logged, refuting "a non-success HTTP status
from the webhook endpoint is caught and logged as a failure". -/
theorem webhook_status_counterexample :
    (postDailyQuote ⟨"EN", some "https://example.com/hook", "123", none, none⟩
        ⟨CUEnv.fetchThrows, fun _ => FetchResult.exn, WebhookOutcome.resp false 500,
         none, false⟩).logs = [LogEvent.sentWebhook]
    ∧ LogEvent.webhookFailed ∉
        (postDailyQuote ⟨"EN", some "https://example.com/hook", "123", none, none⟩
          ⟨CUEnv.fetchThrows, fun _ => FetchResult.exn, WebhookOutcome.resp false 500,
           none, false⟩).logs := by
  constructor
  · rfl
  · decide

/-- C8 (amended): in webhook mode a network error is caught and logged as
a failure, with no retry and no crash; the response's HTTP status is never
inspected, so any received response — success or not — results in the
success log line, again with exactly one POST, no retry and no crash. -/
theorem webhook_failure_handling (cfg : BotConfig) (env : RunEnv) (u : String)
    (hurl : cfg.webhookUrl = some u) (hu : u ≠ "") :
    (env.webhook = WebhookOutcome.throws →
      (postDailyQuote cfg env).logs = [LogEvent.webhookFailed]
      ∧ (postDailyQuote cfg env).posts.length = 1
      ∧ (postDailyQuote cfg env).threw = false)
    ∧ (∀ (ok : Bool) (st : Nat), env.webhook = WebhookOutcome.resp ok st →
        (postDailyQuote cfg env).logs = [LogEvent.sentWebhook]
        ∧ (postDailyQuote cfg env).posts.length = 1
        ∧ (postDailyQuote cfg env).threw = false) := by
  constructor
  · intro hwh
    unfold postDailyQuote
    rw [dispatch_webhook_throws cfg env _ u hurl hu hwh]
    exact ⟨rfl, rfl, rfl⟩
  · intro ok st hwh
    unfold postDailyQuote
    rw [dispatch_webhook_resp cfg env _ u ok st hurl hu hwh]
    exact ⟨rfl, rfl, rfl⟩

/-- Witness for C8 (amended) at a concrete network failure. -/
theorem webhook_failure_handling_witness :
    (postDailyQuote ⟨"EN", some "https://example.com/hook", "123", none, none⟩
        ⟨CUEnv.fetchThrows, fun _ => FetchResult.exn, WebhookOutcome.throws,
         none, false⟩).logs = [LogEvent.webhookFailed]
    ∧ (postDailyQuote ⟨"EN", some "https://example.com/hook", "123", none, none⟩
        ⟨CUEnv.fetchThrows, fun _ => FetchResult.exn, WebhookOutcome.throws,
         none, false⟩).threw = false := by
  have h := (webhook_failure_handling
    ⟨"EN", some "https://example.com/hook", "123", none, none⟩
    ⟨CUEnv.fetchThrows, fun _ => FetchResult.exn, WebhookOutcome.throws, none, false⟩
    "https://example.com/hook" rfl (by decide)).1 rfl
  exact ⟨h.1, h.2.2⟩

/-- C5 counterexample: with credentials present, a non-success upstream
response (HTTP 500) whose JSON body contains a task list does not yield
the empty sequence — the status is never inspected — refuting "the
upstream call failing with a non-success response returns the empty
sequence". -/
theorem fetchClickUpContext_status_counterexample :
    fetchClickUpContext (some "tok") (some "team1")
        (CUEnv.ok 500 (some ⟨some [⟨some "Fix login", some "open"⟩]⟩)) =
      ["Task \"Fix login\" — status: open"]
    ∧ fetchClickUpContext (some "tok") (some "team1")
        (CUEnv.ok 500 (some ⟨some [⟨some "Fix login", some "open"⟩]⟩)) ≠ [] := by
  constructor
  · rfl
  · decide

/-- C5 (amended): the Context Fetcher never raises: it returns the empty
sequence when credentials are missing or falsy, when the fetch or the JSON
parse throws, or when the body holds no task list; when the body parses
and holds a task list it returns the first at-most-5 tasks in upstream
order formatted as `Task "<title>" — status: <status>` with `Untitled` /
`unknown` substituted for missing fields, regardless of the HTTP status
(which the code never inspects); the result never exceeds 5 lines. -/
theorem fetchClickUpContext_behavior (cuToken cuTeamId : Option String) :
    (∀ env, (jsFalsyStr cuToken || jsFalsyStr cuTeamId) = true →
        fetchClickUpContext cuToken cuTeamId env = [])
    ∧ fetchClickUpContext cuToken cuTeamId CUEnv.fetchThrows = []
    ∧ fetchClickUpContext cuToken cuTeamId CUEnv.jsonThrows = []
    ∧ (∀ st, fetchClickUpContext cuToken cuTeamId (CUEnv.ok st none) = [])
    ∧ (∀ st data, (jsFalsyStr cuToken || jsFalsyStr cuTeamId) = false →
        fetchClickUpContext cuToken cuTeamId (CUEnv.ok st (some data)) =
          ((data.tasks.getD []).take 5).map formatTask)
    ∧ (∀ env, (fetchClickUpContext cuToken cuTeamId env).length ≤ 5)
    ∧ formatTask ⟨none, none⟩ = "Task \"Untitled\" — status: unknown" := by
  refine ⟨?_, ?_, ?_, ?_, ?_, ?_, rfl⟩
  · intro env hcred
    unfold fetchClickUpContext
    rw [if_pos hcred]
  · unfold fetchClickUpContext
    split <;> rfl
  · unfold fetchClickUpContext
    split <;> rfl
  · intro st
    unfold fetchClickUpContext
    split <;> rfl
  · intro st data hcred
    unfold fetchClickUpContext
    rw [if_neg (by simp [hcred])]
  · intro env
    unfold fetchClickUpContext
    split
    · simp
    · cases env with
      | fetchThrows => simp
      | jsonThrows => simp
      | ok st body =>
        cases body with
        | none => simp
        | some data =>
          simp only [List.length_map, List.length_take]
          omega

/-- Witness for C5 (amended): absent credentials give the empty sequence
even when the upstream would return tasks; with credentials the formatted
take-5 equation holds. -/
theorem fetchClickUpContext_behavior_witness :
    fetchClickUpContext none (some "team1")
        (CUEnv.ok 200 (some ⟨some [⟨some "A", none⟩]⟩)) = []
    ∧ fetchClickUpContext (some "tok") (some "team1")
        (CUEnv.ok 200 (some ⟨some [⟨some "A", none⟩]⟩)) =
        ((((⟨some [⟨some "A", none⟩]⟩ : CUData).tasks.getD []).take 5).map formatTask) := by
  constructor
  · exact (fetchClickUpContext_behavior none (some "team1")).1 _ (by decide)
  · exact (fetchClickUpContext_behavior (some "tok") (some "team1")).2.2.2.2.1 200 _ (by decide)

end DevQuoteBot
